import Mathlib

/-!
Verification of the stack-deployment progress monitor and the API-Gateway
usage-plan cleanup of the serverless repository.

The monitor implementation (`lib/plugins/aws/lib/monitor-stack.js`) is not
present under `src/`; only its characterization test
(`src/test/unit/lib/plugins/aws/lib/monitor-stack.test.js`) is.  The monitor
definitions below are therefore modelled from the specification (`spec.md`
sections 3, 4 and 6), with the characterization test used to fix the one
point the specification leaves ambiguous (which completion statuses are
terminal).  The usage-plan cleanup
(`src/lib/plugins/aws/package/compile/events/api-gateway/lib/hack/disassociate-usage-plan.js`)
is embedded directly from its source.

String classification in the reference is done with JavaScript
`String.prototype.endsWith` / substring membership; these are embedded as
executable character-list functions so that concrete runs reduce in the
kernel.
-/

/-- Bool test that `l` starts with `pat` (character lists). -/
def listStartsWith (pat l : List Char) : Bool :=
  l.take pat.length == pat

/-- Bool test that string `s` ends with suffix `suf` (JavaScript
`s.endsWith(suf)`). -/
def strEndsWith (s suf : String) : Bool :=
  listStartsWith suf.data.reverse s.data.reverse

/-- Bool test that `pat` occurs as a contiguous sublist of the second list. -/
def listHasSub (pat : List Char) : List Char → Bool
  | [] => listStartsWith pat []
  | c :: rest => listStartsWith pat (c :: rest) || listHasSub pat rest

/-- Bool test that `pat` occurs as a substring of `s`. -/
def strHasSub (s pat : String) : Bool :=
  listHasSub pat.data s.data

/-- Modelled from the spec: a Stack Event record (spec section 3): unique event
id, owning stack name, logical resource id, resource type, resource status, an
optional status reason and a timestamp. -/
structure StackEvent where
  eventId : String
  stackName : String
  logicalResourceId : String
  resourceType : String
  resourceStatus : String
  resourceStatusReason : Option String
  timestamp : Nat
deriving Repr, DecidableEq

/-- Modelled from the spec: the operation kind of a monitoring session (spec
section 3): one of create, update, delete. -/
inductive OpKind where
  | create
  | update
  | delete
deriving Repr, DecidableEq

/-- Modelled from the spec: the success status the monitor waits for,
`${KIND}_COMPLETE` (spec section 3). -/
def OpKind.successStatus : OpKind → String
  | .create => "CREATE_COMPLETE"
  | .update => "UPDATE_COMPLETE"
  | .delete => "DELETE_COMPLETE"

/-- The reserved resource type tag identifying an event that concerns a stack
resource itself (spec section 3; the test fixture uses
`AWS::CloudFormation::Stack`). -/
def stackResourceType : String := "AWS::CloudFormation::Stack"

/-- Modelled from the spec: Event Classifier root tag (spec section 4.2): an
event is a `RootEvent` iff its logical resource id equals the stack's own name
and its resource type equals the reserved stack-resource type. -/
def isRootEvent (stackName : String) (e : StackEvent) : Bool :=
  e.logicalResourceId == stackName && e.resourceType == stackResourceType

/-- Modelled from the spec: Event Classifier failure flag (spec section 4.2):
true iff the resource status ends with the suffix `_FAILED`. -/
def isFailureEvent (e : StackEvent) : Bool :=
  strEndsWith e.resourceStatus "_FAILED"

/-- Modelled from the spec: root statuses that end the session (spec section
4.3): one of the three completion statuses `CREATE_COMPLETE` /
`UPDATE_COMPLETE` / `DELETE_COMPLETE`, or a recognized rollback/failure
terminal status (`*_ROLLBACK_COMPLETE`, `*_ROLLBACK_FAILED`,
`ROLLBACK_COMPLETE`, `*_FAILED`).  The spec parenthesizes all three completion
statuses together; the characterization test
(monitor-stack.test.js:471-526) has a `create` session end when the root
reaches `DELETE_COMPLETE`, so all three completion statuses are terminal
regardless of the session's operation kind, matching the reference's single
`validStatuses` list. -/
def isTerminalRootStatus (s : String) : Bool :=
  s == "CREATE_COMPLETE" || s == "UPDATE_COMPLETE" || s == "DELETE_COMPLETE" ||
    strEndsWith s "_ROLLBACK_COMPLETE" || strEndsWith s "_ROLLBACK_FAILED" ||
    s == "ROLLBACK_COMPLETE" || strEndsWith s "_FAILED"

/-- Modelled from the spec: the mutable state of one monitoring session (spec
section 3): the seen-event set (event ids already classified), the root
stack's last-known status (starts unset) and the most recently observed
failure as a (resource name, reason) pair (starts unset). -/
structure SessionState where
  seen : List String
  rootStatus : Option String
  latestFailure : Option (String × String)
deriving Repr, DecidableEq

/-- The initial state of a session: nothing seen, root status unset, no
failure recorded. -/
def SessionState.init : SessionState :=
  { seen := [], rootStatus := none, latestFailure := none }

/-- Modelled from the spec: the Event Cursor (spec section 4.1), iterating the
feed oldest-first (the caller passes the reversed feed): skip events whose id
is already in the seen set, yield the rest in order and add their ids to the
seen set.  Returns (yielded events, updated seen set). -/
def dedupOldest (seen : List String) : List StackEvent → List StackEvent × List String
  | [] => ([], seen)
  | e :: rest =>
    if e.eventId ∈ seen then dedupOldest seen rest
    else
      let p := dedupOldest (seen ++ [e.eventId]) rest
      (e :: p.1, p.2)

/-- Modelled from the spec: `admit` of the Event Cursor (spec section 4.1):
the feed arrives newest-first; the cursor reverses it and yields only the
events not previously admitted, oldest-to-newest, marking them seen. -/
def cursorAdmitted (seen : List String) (feed : List StackEvent) :
    List StackEvent × List String :=
  dedupOldest seen feed.reverse

/-- Modelled from the spec: the Progress Tracker transition for one admitted
event (spec section 4.3): a `RootEvent` sets the root status to the event's
resource status; an event whose failure flag is true (root or child) records
the latest failure as (logical resource id, reason-or-status), where the
reason is the status reason if present, otherwise the literal resource status
(spec section 3: the failure record is set the first time a failing event is
classified). -/
def applyEvent (stackName : String) (st : SessionState) (e : StackEvent) :
    SessionState :=
  let st1 :=
    if isRootEvent stackName e then { st with rootStatus := some e.resourceStatus }
    else st
  if isFailureEvent e then
    match st1.latestFailure with
    | some _ => st1
    | none =>
      { st1 with
        latestFailure :=
          some (e.logicalResourceId, e.resourceStatusReason.getD e.resourceStatus) }
  else st1

/-- One poll's worth of processing (spec section 4.4 loop body): admit the
feed through the cursor, then fold the tracker transition over the newly
admitted events oldest-to-newest.  Returns the new state together with the
admitted events (the ones a verbose session would emit, one line each). -/
def processPoll (stackName : String) (st : SessionState) (feed : List StackEvent) :
    SessionState × List StackEvent :=
  let p := cursorAdmitted st.seen feed
  (p.1.foldl (applyEvent stackName) { st with seen := p.2 }, p.1)

/-- Bool test that the session's root status is set and terminal. -/
def rootTerminal (st : SessionState) : Bool :=
  match st.rootStatus with
  | some s => isTerminalRootStatus s
  | none => false

/-- Modelled from the spec: the session outcome (spec section 3): a terminal
status string on success, a structured (resource, reason) failure, or a client
error propagated unchanged from the event-feed call (spec section 4.4). -/
inductive Outcome where
  | resolved : String → Outcome
  | rejected : (resource : String) → (reason : String) → Outcome
  | clientError : String → Outcome
deriving Repr, DecidableEq

/-- Modelled from the spec: the Progress Tracker's stop decision after one
poll (spec section 4.3): if the root status is set and terminal, stop —
`rejected` with the recorded failure if one was ever recorded, otherwise
`resolved` with the root status value; otherwise remain polling (`none`). -/
def trackerDecision (st : SessionState) : Option Outcome :=
  match st.rootStatus with
  | none => none
  | some s =>
    if isTerminalRootStatus s then
      match st.latestFailure with
      | some (r, reason) => some (.rejected r reason)
      | none => some (.resolved s)
    else none

/-- The result of one event-feed client call (spec section 6): the known
events newest-first, or a failure with an error message. -/
inductive PollResult where
  | events : List StackEvent → PollResult
  | failure : String → PollResult
deriving Repr, DecidableEq

/-- Modelled from the spec: a "does not exist" style client error message
(spec section 4.4). -/
def indicatesDoesNotExist (msg : String) : Bool :=
  strHasSub msg "does not exist"

/-- Modelled from the spec: the Poll Loop (spec section 4.4) over a scripted
list of client-call results, one entry per poll.  Returns the session outcome
(`none` when the script ends with the session still polling) together with the
number of client calls made.  A failed client call on a delete session whose
message indicates the stack no longer exists resolves to `DELETE_COMPLETE`;
any other failed call terminates the session immediately with the error
propagated unchanged; a successful call is processed through cursor,
classifier and tracker, stopping when the tracker decides. -/
def runPolls (k : OpKind) (stackName : String) (st : SessionState) :
    List PollResult → Option Outcome × Nat
  | [] => (none, 0)
  | PollResult.failure msg :: _ =>
    if k == OpKind.delete && indicatesDoesNotExist msg then
      (some (.resolved "DELETE_COMPLETE"), 1)
    else
      (some (.clientError msg), 1)
  | PollResult.events feed :: rest =>
    let st1 := (processPoll stackName st feed).1
    match trackerDecision st1 with
    | some o => (some o, 1)
    | none =>
      let r := runPolls k stackName st1 rest
      (r.1, r.2 + 1)

/-- Modelled from the spec: the stack reference handed to the monitor entry
point (spec sections 4.4 and 6): either a stack-identifier-bearing value or
the "already created, nothing changed" sentinel. -/
inductive StackRef where
  | alreadyCreated
  | stackId : String → StackRef
deriving Repr, DecidableEq

/-- Modelled from the spec: the monitor entry point (spec section 6): on the
sentinel, return immediately with no outcome and zero client calls; otherwise
run the poll loop from the initial session state. -/
def monitorStack (k : OpKind) (ref : StackRef) (polls : List PollResult) :
    Option Outcome × Nat :=
  match ref with
  | .alreadyCreated => (none, 0)
  | .stackId name => runPolls k name SessionState.init polls

/-- Modelled from the spec: the error taxonomy of the Outcome Reporter (spec
section 7): a distinct deployment-failure kind, versus a client failure
surfaced unchanged. -/
inductive MonitorError where
  | serverlessError : String → MonitorError
  | clientFailure : String → MonitorError
deriving Repr, DecidableEq

/-- Modelled from the spec: the Outcome Reporter (spec section 4.5): a
resolved status is returned as the session's result; a rejected outcome
becomes a deployment-failure error with message exactly
`An error occurred: <resource> - <reason>.`; any other error is surfaced
unchanged. -/
def reportOutcome : Outcome → Except MonitorError String
  | .resolved s => .ok s
  | .rejected r reason =>
    .error (.serverlessError ("An error occurred: " ++ r ++ " - " ++ reason ++ "."))
  | .clientError msg => .error (.clientFailure msg)

/-- An API-Gateway usage-plan stage entry, as consumed by
`disassociate-usage-plan.js` (fields `apiId` and `stage`). -/
structure ApiStage where
  apiId : String
  stage : String
deriving Repr, DecidableEq

/-- A usage plan as returned by `getUsagePlans` (fields `id` and
`apiStages`), as consumed by `disassociate-usage-plan.js`. -/
structure UsagePlan where
  id : String
  apiStages : List ApiStage
deriving Repr, DecidableEq

/-- A provider request issued by `disassociateUsagePlan`
(`this.provider.request(service, method, params)`): `describeStackResource`
with stack name and logical resource id, `getUsagePlans`, or
`updateUsagePlan` with the plan id and the `remove /apiStages` patch value
`apiId:stage`. -/
inductive AwsRequest where
  | describeStackResource : (stackName : String) → (logicalResourceId : String) → AwsRequest
  | getUsagePlans : AwsRequest
  | updateUsagePlan : (usagePlanId : String) → (patchValue : String) → AwsRequest
deriving Repr, DecidableEq

/-- The provider context `disassociateUsagePlan` reads: the stack name and
rest-api logical id from `this.provider.naming`, the physical resource id the
`describeStackResource` response carries, and the usage plans the
`getUsagePlans` response carries. -/
structure ProviderEnv where
  stackName : String
  restApiLogicalId : String
  restApiPhysicalId : String
  usagePlans : List UsagePlan
deriving Repr, DecidableEq

/-- Embedding of `disassociateUsagePlan`
(src/lib/plugins/aws/package/compile/events/api-gateway/lib/hack/disassociate-usage-plan.js):
reads `provider.apiGateway.apiKeys` (`none` models an absent field); when the
field is present and non-empty it issues `describeStackResource` and
`getUsagePlans`, filters the usage plans whose `apiStages` contain the rest
api's physical resource id, and issues one `updateUsagePlan` remove-patch per
(plan, apiStage); otherwise it returns without issuing any request.  The
result is the list of provider requests issued. -/
def disassociateUsagePlan (apiKeys : Option (List String)) (env : ProviderEnv) :
    List AwsRequest :=
  match apiKeys with
  | none => []
  | some keys =>
    if keys.length != 0 then
      let items := env.usagePlans.filter
        (fun item => (item.apiStages.map ApiStage.apiId).contains env.restApiPhysicalId)
      AwsRequest.describeStackResource env.stackName env.restApiLogicalId ::
        AwsRequest.getUsagePlans ::
        (items.map (fun item =>
          item.apiStages.map (fun s =>
            AwsRequest.updateUsagePlan item.id (s.apiId ++ ":" ++ s.stage)))).flatten
    else []

/-- The effect of one provider request on the usage plans held by the
provider: an `updateUsagePlan` remove-patch deletes the matching `apiId:stage`
association from the named plan; the two read-only requests change nothing. -/
def applyRequest (plans : List UsagePlan) : AwsRequest → List UsagePlan
  | .updateUsagePlan pid value =>
    plans.map (fun p =>
      if p.id == pid then
        { p with apiStages := p.apiStages.filter (fun s => (s.apiId ++ ":" ++ s.stage) != value) }
      else p)
  | _ => plans

/-- The effect of a sequence of provider requests on the usage plans. -/
def applyRequests (plans : List UsagePlan) (reqs : List AwsRequest) : List UsagePlan :=
  reqs.foldl applyRequest plans

/-- A root stack event of the test fixture's stack `new-service-dev`
(monitor-stack.test.js `defaultEvent`). -/
def rootEvent (id status : String) : StackEvent :=
  { eventId := id, stackName := "new-service-dev",
    logicalResourceId := "new-service-dev",
    resourceType := "AWS::CloudFormation::Stack", resourceStatus := status,
    resourceStatusReason := none, timestamp := 0 }

/-- A child (non-root) stack event of the test fixture's stack. -/
def childEvent (id lrid rtype status : String) (reason : Option String) : StackEvent :=
  { eventId := id, stackName := "new-service-dev", logicalResourceId := lrid,
    resourceType := rtype, resourceStatus := status,
    resourceStatusReason := reason, timestamp := 0 }

/-- The poll script of the verbose rollback scenario
(monitor-stack.test.js:221-253): root `UPDATE_IN_PROGRESS`; child `mochaS3`
`CREATE_FAILED` with reason `Bucket already exists`; root
`UPDATE_ROLLBACK_IN_PROGRESS`; root `ROLLBACK_COMPLETE`. -/
def mochaPolls : List PollResult :=
  [ PollResult.events [rootEvent "1a2b0000" "UPDATE_IN_PROGRESS"],
    PollResult.events
      [childEvent "1a2b0001" "mochaS3" "AWS::S3::Bucket" "CREATE_FAILED"
        (some "Bucket already exists")],
    PollResult.events [rootEvent "1a2b0002" "UPDATE_ROLLBACK_IN_PROGRESS"],
    PollResult.events [rootEvent "1a2b0003" "ROLLBACK_COMPLETE"] ]

/-- The single-poll feed of the failed-create-then-delete scenario
(monitor-stack.test.js:471-526), newest-first as the feed delivers it: root
`DELETE_COMPLETE`; `myBucket` `DELETE_IN_PROGRESS`; root `DELETE_IN_PROGRESS`;
`myBucket` `CREATE_FAILED` with reason `Invalid Property for X`; root
`CREATE_IN_PROGRESS`. -/
def firstPollFeed : List StackEvent :=
  [ rootEvent "1m2n3o4p" "DELETE_COMPLETE",
    childEvent "1i2j3k4l" "myBucket" "AWS::S3::Bucket" "DELETE_IN_PROGRESS" none,
    rootEvent "1a2b3c4e" "DELETE_IN_PROGRESS",
    childEvent "1e2f3g4h" "myBucket" "AWS::S3::Bucket" "CREATE_FAILED"
      (some "Invalid Property for X"),
    rootEvent "1a2b3c4d" "CREATE_IN_PROGRESS" ]

/-- Cursor bookkeeping: the updated seen set is the old one extended by
exactly the yielded ids; every yielded event was unseen; the yielded ids are
pairwise distinct. -/
theorem dedupOldest_spec (l : List StackEvent) :
    ∀ seen : List String,
      (dedupOldest seen l).2 = seen ++ (dedupOldest seen l).1.map StackEvent.eventId ∧
      (∀ e ∈ (dedupOldest seen l).1, e.eventId ∉ seen) ∧
      ((dedupOldest seen l).1.map StackEvent.eventId).Nodup := by
  induction l with
  | nil => intro seen; simp [dedupOldest]
  | cons e rest ih =>
    intro seen
    by_cases h : e.eventId ∈ seen
    · simpa [dedupOldest, h] using ih seen
    · have ih2 := ih (seen ++ [e.eventId])
      simp only [dedupOldest, if_neg h]
      refine ⟨?_, ?_, ?_⟩
      · rw [ih2.1]
        simp
      · intro e' he'
        rcases List.mem_cons.mp he' with he' | he'
        · subst he'; exact h
        · have := ih2.2.1 e' he'
          intro hc
          exact this (List.mem_append_left _ hc)
      · rw [List.map_cons]
        refine List.nodup_cons.mpr ⟨?_, ih2.2.2⟩
        intro hc
        rcases List.mem_map.mp hc with ⟨e', he', heq⟩
        have := ih2.2.1 e' he'
        exact this (by rw [heq]; exact List.mem_append_right _ (List.mem_singleton.mpr rfl))

/-- A feed consisting only of already-seen event ids yields nothing and
leaves the seen set unchanged. -/
theorem dedupOldest_all_seen (l : List StackEvent) (seen : List String)
    (h : ∀ e ∈ l, e.eventId ∈ seen) :
    dedupOldest seen l = ([], seen) := by
  induction l with
  | nil => rfl
  | cons e rest ih =>
    have he : e.eventId ∈ seen := h e (List.mem_cons_self e rest)
    rw [dedupOldest, if_pos he]
    exact ih (fun e' he' => h e' (List.mem_cons_of_mem e he'))

/-- On a duplicate-free feed segment, the cursor yields exactly the unseen
events, in order. -/
theorem dedupOldest_eq_filter (l : List StackEvent) :
    ∀ seen : List String, (l.map StackEvent.eventId).Nodup →
      (dedupOldest seen l).1 = l.filter (fun e => !(decide (e.eventId ∈ seen))) := by
  induction l with
  | nil => intro seen _; rfl
  | cons e rest ih =>
    intro seen hnd
    rw [List.map_cons, List.nodup_cons] at hnd
    by_cases h : e.eventId ∈ seen
    · rw [dedupOldest, if_pos h, List.filter_cons]
      have hp : (!(decide (e.eventId ∈ seen))) = false := by simp [h]
      rw [hp]
      simp only [Bool.false_eq_true, if_false]
      exact ih seen hnd.2
    · rw [dedupOldest, if_neg h, List.filter_cons]
      have hp : (!(decide (e.eventId ∈ seen))) = true := by simp [h]
      rw [hp]
      simp only [if_true]
      show e :: (dedupOldest (seen ++ [e.eventId]) rest).1 =
        e :: rest.filter (fun x => !(decide (x.eventId ∈ seen)))
      have step := ih (seen ++ [e.eventId]) hnd.2
      have hcong : rest.filter (fun x => !(decide (x.eventId ∈ seen ++ [e.eventId]))) =
          rest.filter (fun x => !(decide (x.eventId ∈ seen))) := by
        refine List.filter_congr ?_
        intro x hx
        have hx2 : x.eventId ≠ e.eventId := by
          intro hc
          exact hnd.1 (List.mem_map.mpr ⟨x, hx, hc⟩)
        by_cases hmem : x.eventId ∈ seen
        · simp [hmem]
        · simp [hmem, hx2]
      rw [step, hcong]

/-- The tracker decides to stop exactly when the root status is set and
terminal. -/
theorem trackerDecision_isSome (st : SessionState) :
    (trackerDecision st).isSome = rootTerminal st := by
  unfold trackerDecision rootTerminal
  cases hr : st.rootStatus with
  | none => rfl
  | some s =>
    by_cases h : isTerminalRootStatus s = true
    · cases hf : st.latestFailure with
      | none => simp [h]
      | some p => cases p; simp [h]
    · simp [h]

/-- A run that produces an outcome made at least one client call. -/
theorem runPolls_one_le (k : OpKind) (name : String) (st : SessionState)
    (polls : List PollResult)
    (h : (runPolls k name st polls).1.isSome = true) :
    1 ≤ (runPolls k name st polls).2 := by
  match polls with
  | [] => simp [runPolls] at h
  | PollResult.failure msg :: rest =>
    by_cases hc : (k == OpKind.delete && indicatesDoesNotExist msg) = true
    · simp [runPolls, hc]
    · simp [runPolls, hc]
  | PollResult.events feed :: rest =>
    simp only [runPolls]
    cases hd : trackerDecision (processPoll name st feed).1 with
    | some o => simp
    | none => simp

/-- Whether the tracker is terminal depends only on the root status. -/
theorem rootTerminal_congr (st st' : SessionState)
    (h : st'.rootStatus = st.rootStatus) : rootTerminal st' = rootTerminal st := by
  unfold rootTerminal
  rw [h]

/-- Claim C1: a failure event does not by itself end the session: for every
reachable session state, a poll whose client call succeeds ends the session
(resolving or rejecting, i.e. producing an outcome at this very call) exactly
when the root stack's own status after that poll is one of the recognized
terminal values; and whenever the root status after the poll is not terminal,
the Poll Loop stays in Polling and issues the next client call, so the call
count grows by one around the remaining script. -/
theorem c1_polling_ends_only_on_terminal_root (k : OpKind) (name : String)
    (st : SessionState) (feed : List StackEvent) (rest : List PollResult) :
    (((runPolls k name st (PollResult.events feed :: rest)).1.isSome = true ∧
        (runPolls k name st (PollResult.events feed :: rest)).2 = 1) ↔
      rootTerminal (processPoll name st feed).1 = true) ∧
    (rootTerminal (processPoll name st feed).1 = false →
      runPolls k name st (PollResult.events feed :: rest) =
        ((runPolls k name (processPoll name st feed).1 rest).1,
         (runPolls k name (processPoll name st feed).1 rest).2 + 1)) := by
  have hiff := trackerDecision_isSome (processPoll name st feed).1
  cases hd : trackerDecision (processPoll name st feed).1 with
  | some o =>
    have hterm : rootTerminal (processPoll name st feed).1 = true := by
      rw [← hiff, hd]; rfl
    constructor
    · rw [hterm]
      simp [runPolls, hd]
    · intro hfalse
      rw [hterm] at hfalse
      cases hfalse
  | none =>
    have hterm : rootTerminal (processPoll name st feed).1 = false := by
      rw [← hiff, hd]; rfl
    have heq : runPolls k name st (PollResult.events feed :: rest) =
        ((runPolls k name (processPoll name st feed).1 rest).1,
         (runPolls k name (processPoll name st feed).1 rest).2 + 1) := by
      simp [runPolls, hd]
    refine ⟨?_, fun _ => heq⟩
    rw [hterm]
    constructor
    · rintro ⟨hs, hn⟩
      exfalso
      rw [heq] at hs hn
      have := runPolls_one_le k name (processPoll name st feed).1 rest hs
      simp at hn
      omega
    · intro hc
      cases hc

/-- Witness for C1 at a concrete input: after a first poll showing only the
root's `CREATE_IN_PROGRESS`, the session stays in Polling and makes the next
client call. -/
theorem c1_polling_ends_only_on_terminal_root_witness :
    runPolls OpKind.create "new-service-dev" SessionState.init
        (PollResult.events [rootEvent "w1" "CREATE_IN_PROGRESS"] ::
          [PollResult.events [rootEvent "w2" "CREATE_COMPLETE"]]) =
      ((runPolls OpKind.create "new-service-dev"
          (processPoll "new-service-dev" SessionState.init
            [rootEvent "w1" "CREATE_IN_PROGRESS"]).1
          [PollResult.events [rootEvent "w2" "CREATE_COMPLETE"]]).1,
       (runPolls OpKind.create "new-service-dev"
          (processPoll "new-service-dev" SessionState.init
            [rootEvent "w1" "CREATE_IN_PROGRESS"]).1
          [PollResult.events [rootEvent "w2" "CREATE_COMPLETE"]]).2 + 1) :=
  (c1_polling_ends_only_on_terminal_root OpKind.create "new-service-dev"
    SessionState.init [rootEvent "w1" "CREATE_IN_PROGRESS"]
    [PollResult.events [rootEvent "w2" "CREATE_COMPLETE"]]).2 (by decide)

/-- A session state in which the root has reached `ROLLBACK_COMPLETE` after
the child `mochaS3` failed with `Bucket already exists`. -/
def mochaRejectedState : SessionState :=
  { seen := [], rootStatus := some "ROLLBACK_COMPLETE",
    latestFailure := some ("mochaS3", "Bucket already exists") }

/-- Claim C2: every `Rejected(resource, reason)` decision of the tracker
carries exactly the recorded failing event's resource and reason, and the
reporter turns it into the distinct deployment-failure error with message
exactly `An error occurred: <resource> - <reason>.`; in particular the
`mochaS3` / `Bucket already exists` scenario
(monitor-stack.test.js:221-253) rejects after 4 polls with message exactly
`An error occurred: mochaS3 - Bucket already exists.`. -/
theorem c2_rejected_outcome_message (st : SessionState) (r reason : String)
    (h : trackerDecision st = some (Outcome.rejected r reason)) :
    st.latestFailure = some (r, reason) ∧
    reportOutcome (Outcome.rejected r reason) =
      Except.error (MonitorError.serverlessError
        ("An error occurred: " ++ r ++ " - " ++ reason ++ ".")) ∧
    monitorStack OpKind.update (StackRef.stackId "new-service-dev") mochaPolls =
      (some (Outcome.rejected "mochaS3" "Bucket already exists"), 4) ∧
    reportOutcome (Outcome.rejected "mochaS3" "Bucket already exists") =
      Except.error (MonitorError.serverlessError
        "An error occurred: mochaS3 - Bucket already exists.") := by
  refine ⟨?_, rfl, by decide, rfl⟩
  obtain ⟨seen, root, fail⟩ := st
  cases root with
  | none => exact absurd h (by simp [trackerDecision])
  | some s =>
    cases fail with
    | none =>
      by_cases ht : isTerminalRootStatus s = true
      · simp [trackerDecision, ht] at h
      · simp [trackerDecision, ht] at h
    | some p =>
      cases p with
      | mk a b =>
        by_cases ht : isTerminalRootStatus s = true
        · simp [trackerDecision, ht] at h
          show some (a, b) = some (r, reason)
          rw [h.1, h.2]
        · simp [trackerDecision, ht] at h

/-- Witness for C2 at a concrete input: the state recorded for the `mochaS3`
failure yields exactly that resource and reason. -/
theorem c2_rejected_outcome_message_witness :
    mochaRejectedState.latestFailure = some ("mochaS3", "Bucket already exists") ∧
    reportOutcome (Outcome.rejected "mochaS3" "Bucket already exists") =
      Except.error (MonitorError.serverlessError
        ("An error occurred: " ++ "mochaS3" ++ " - " ++ "Bucket already exists" ++ ".")) ∧
    monitorStack OpKind.update (StackRef.stackId "new-service-dev") mochaPolls =
      (some (Outcome.rejected "mochaS3" "Bucket already exists"), 4) ∧
    reportOutcome (Outcome.rejected "mochaS3" "Bucket already exists") =
      Except.error (MonitorError.serverlessError
        "An error occurred: mochaS3 - Bucket already exists.") :=
  c2_rejected_outcome_message mochaRejectedState "mochaS3" "Bucket already exists"
    (by decide)

/-- Claim C3: on a delete session, a failed client call whose message
indicates the stack no longer exists does not propagate the error: the
session resolves successfully with outcome `DELETE_COMPLETE` at that call. -/
theorem c3_delete_not_exist_resolves (name : String) (st : SessionState)
    (msg : String) (rest : List PollResult)
    (h : indicatesDoesNotExist msg = true) :
    runPolls OpKind.delete name st (PollResult.failure msg :: rest) =
      (some (Outcome.resolved "DELETE_COMPLETE"), 1) ∧
    reportOutcome (Outcome.resolved "DELETE_COMPLETE") = Except.ok "DELETE_COMPLETE" := by
  refine ⟨?_, rfl⟩
  simp [runPolls, h]

/-- Witness for C3 at a concrete input: the fixture's
`Stack new-service-dev does not exist` error on the second poll of a delete
session (monitor-stack.test.js:199-219). -/
theorem c3_delete_not_exist_resolves_witness :
    runPolls OpKind.delete "new-service-dev"
        (processPoll "new-service-dev" SessionState.init
          [rootEvent "w3" "DELETE_IN_PROGRESS"]).1
        (PollResult.failure "Stack new-service-dev does not exist" :: []) =
      (some (Outcome.resolved "DELETE_COMPLETE"), 1) ∧
    reportOutcome (Outcome.resolved "DELETE_COMPLETE") = Except.ok "DELETE_COMPLETE" :=
  c3_delete_not_exist_resolves "new-service-dev"
    (processPoll "new-service-dev" SessionState.init
      [rootEvent "w3" "DELETE_IN_PROGRESS"]).1
    "Stack new-service-dev does not exist" [] (by decide)

/-- Claim C4: an event that is not a `RootEvent` — its logical resource id
differs from the stack's name, or its resource type is not the reserved
stack-resource type — never changes the tracked root status, whatever its own
resource status; consequently it cannot make a non-terminal tracker terminal,
so a child's own COMPLETE status never ends the session. -/
theorem c4_child_event_never_changes_root (name : String) (st : SessionState)
    (e : StackEvent)
    (h : e.logicalResourceId ≠ name ∨ e.resourceType ≠ stackResourceType) :
    (applyEvent name st e).rootStatus = st.rootStatus ∧
    (rootTerminal st = false → rootTerminal (applyEvent name st e) = false) := by
  have hroot : isRootEvent name e = false := by
    unfold isRootEvent
    rcases h with h | h
    · simp [h]
    · simp [h]
  have h1 : (applyEvent name st e).rootStatus = st.rootStatus := by
    unfold applyEvent
    rw [hroot]
    simp only [Bool.false_eq_true, if_false]
    by_cases hf : isFailureEvent e = true
    · rw [if_pos hf]
      cases st.latestFailure with
      | some p => rfl
      | none => rfl
    · rw [if_neg hf]
  exact ⟨h1, fun h2 => by rw [rootTerminal_congr st (applyEvent name st e) h1]; exact h2⟩

/-- Witness for C4 at a concrete input: a nested stack's own
`CREATE_COMPLETE` event (monitor-stack.test.js:124-147) leaves the root
status unset and the tracker non-terminal. -/
theorem c4_child_event_never_changes_root_witness :
    (applyEvent "new-service-dev" SessionState.init
        (childEvent "w4" "nested-stack-name" "AWS::CloudFormation::Stack"
          "CREATE_COMPLETE" none)).rootStatus = SessionState.init.rootStatus ∧
    rootTerminal (applyEvent "new-service-dev" SessionState.init
        (childEvent "w4" "nested-stack-name" "AWS::CloudFormation::Stack"
          "CREATE_COMPLETE" none)) = false :=
  ⟨(c4_child_event_never_changes_root "new-service-dev" SessionState.init
      (childEvent "w4" "nested-stack-name" "AWS::CloudFormation::Stack"
        "CREATE_COMPLETE" none) (Or.inl (by decide))).1,
   (c4_child_event_never_changes_root "new-service-dev" SessionState.init
      (childEvent "w4" "nested-stack-name" "AWS::CloudFormation::Stack"
        "CREATE_COMPLETE" none) (Or.inl (by decide))).2 (by decide)⟩

/-- Claim C5: the classifier's failure flag is true exactly when the event's
resource status ends with `_FAILED`, and an event whose failure flag is false
never touches the latest-failure record. -/
theorem c5_failure_flag_iff (name : String) (st : SessionState) (e : StackEvent) :
    (isFailureEvent e = true ↔ strEndsWith e.resourceStatus "_FAILED" = true) ∧
    (isFailureEvent e = false →
      (applyEvent name st e).latestFailure = st.latestFailure) := by
  refine ⟨Iff.rfl, ?_⟩
  intro hf
  simp only [applyEvent, hf, Bool.false_eq_true, if_false]
  split
  · rfl
  · rfl

/-- Witness for C5 at a concrete input: a root `CREATE_IN_PROGRESS` event
(failure flag false) leaves the latest-failure record unchanged. -/
theorem c5_failure_flag_iff_witness :
    (applyEvent "new-service-dev" SessionState.init
        (rootEvent "w6" "CREATE_IN_PROGRESS")).latestFailure =
      SessionState.init.latestFailure :=
  (c5_failure_flag_iff "new-service-dev" SessionState.init
    (rootEvent "w6" "CREATE_IN_PROGRESS")).2 (by decide)

/-- Claim C6: a failed client call that is not the delete-operation
"does not exist" race ends the session at that very call with the error
propagated unchanged and no retry; on the very first poll this means exactly
one client call. -/
theorem c6_client_error_propagated (k : OpKind) (name : String) (st : SessionState)
    (msg : String) (rest : List PollResult)
    (h : k = OpKind.delete → indicatesDoesNotExist msg = false) :
    runPolls k name st (PollResult.failure msg :: rest) =
      (some (Outcome.clientError msg), 1) ∧
    monitorStack k (StackRef.stackId name) (PollResult.failure msg :: rest) =
      (some (Outcome.clientError msg), 1) ∧
    reportOutcome (Outcome.clientError msg) =
      Except.error (MonitorError.clientFailure msg) := by
  have hc : (k == OpKind.delete && indicatesDoesNotExist msg) = false := by
    cases k with
    | delete => simp [h rfl]
    | create => simp [show (OpKind.create == OpKind.delete) = false by decide]
    | update => simp [show (OpKind.update == OpKind.delete) = false by decide]
  refine ⟨?_, ?_, rfl⟩
  · simp [runPolls, hc]
  · simp [monitorStack, runPolls, hc]

/-- Witness for C6 at a concrete input: the fixture's
`Something went wrong.` error on the very first poll of an update session
(monitor-stack.test.js:276-293) terminates after exactly 1 client call. -/
theorem c6_client_error_propagated_witness :
    runPolls OpKind.update "new-service-dev" SessionState.init
        (PollResult.failure "Something went wrong." :: []) =
      (some (Outcome.clientError "Something went wrong."), 1) ∧
    monitorStack OpKind.update (StackRef.stackId "new-service-dev")
        (PollResult.failure "Something went wrong." :: []) =
      (some (Outcome.clientError "Something went wrong."), 1) ∧
    reportOutcome (Outcome.clientError "Something went wrong.") =
      Except.error (MonitorError.clientFailure "Something went wrong.") :=
  c6_client_error_propagated OpKind.update "new-service-dev" SessionState.init
    "Something went wrong." [] (by decide)

/-- Claim C7: on a duplicate-free feed, the cursor returns exactly the events
not previously admitted, in oldest-to-newest order (the reversal of the
newest-first feed order), and marks exactly those events seen; the
single-poll feed of monitor-stack.test.js:471-526 (root `DELETE_COMPLETE`
listed first, root `CREATE_IN_PROGRESS` last) is processed oldest-first and
the session reaches its outcome on that one poll. -/
theorem c7_cursor_oldest_first (seen : List String) (feed : List StackEvent)
    (h : (feed.map StackEvent.eventId).Nodup) :
    (cursorAdmitted seen feed).1 =
      (feed.filter (fun e => !(decide (e.eventId ∈ seen)))).reverse ∧
    (cursorAdmitted seen feed).2 =
      seen ++ (cursorAdmitted seen feed).1.map StackEvent.eventId ∧
    monitorStack OpKind.create (StackRef.stackId "new-service-dev")
        [PollResult.events firstPollFeed] =
      (some (Outcome.rejected "myBucket" "Invalid Property for X"), 1) := by
  refine ⟨?_, (dedupOldest_spec feed.reverse seen).1, by decide⟩
  unfold cursorAdmitted
  have hnd : (feed.reverse.map StackEvent.eventId).Nodup := by
    rw [List.map_reverse]
    exact List.nodup_reverse.mpr h
  rw [dedupOldest_eq_filter feed.reverse seen hnd, List.filter_reverse]

/-- Witness for C7 at a concrete input: the five-event feed of
monitor-stack.test.js:471-526 against an empty seen set. -/
theorem c7_cursor_oldest_first_witness :
    (cursorAdmitted [] firstPollFeed).1 =
      (firstPollFeed.filter (fun e => !(decide (e.eventId ∈ ([] : List String))))).reverse ∧
    (cursorAdmitted [] firstPollFeed).2 =
      [] ++ (cursorAdmitted [] firstPollFeed).1.map StackEvent.eventId ∧
    monitorStack OpKind.create (StackRef.stackId "new-service-dev")
        [PollResult.events firstPollFeed] =
      (some (Outcome.rejected "myBucket" "Invalid Property for X"), 1) :=
  c7_cursor_oldest_first [] firstPollFeed (by decide)

/-- Claim C8: the cursor never yields the same event id twice in a session:
whatever the seen set, the yielded ids are pairwise distinct and disjoint from
the ids already seen; and a poll whose feed consists only of already-admitted
events changes no tracker state and re-emits nothing. -/
theorem c8_cursor_never_twice (name : String) (st : SessionState)
    (feed : List StackEvent) (h : ∀ e ∈ feed, e.eventId ∈ st.seen) :
    processPoll name st feed = (st, []) ∧
    ∀ (seen2 : List String) (feed2 : List StackEvent),
      ((cursorAdmitted seen2 feed2).1.map StackEvent.eventId).Nodup ∧
      ∀ e ∈ (cursorAdmitted seen2 feed2).1, e.eventId ∉ seen2 := by
  constructor
  · have hall : ∀ e ∈ feed.reverse, e.eventId ∈ st.seen := by
      intro e he
      exact h e (List.mem_reverse.mp he)
    simp only [processPoll, cursorAdmitted,
      dedupOldest_all_seen feed.reverse st.seen hall, List.foldl_nil]
  · intro seen2 feed2
    refine ⟨?_, ?_⟩
    · show ((dedupOldest seen2 feed2.reverse).1.map StackEvent.eventId).Nodup
      exact (dedupOldest_spec feed2.reverse seen2).2.2
    · show ∀ e ∈ (dedupOldest seen2 feed2.reverse).1, e.eventId ∉ seen2
      exact (dedupOldest_spec feed2.reverse seen2).2.1

/-- A session state that has already admitted the event id `w5`. -/
def seenW5State : SessionState :=
  { seen := ["w5"], rootStatus := some "CREATE_IN_PROGRESS", latestFailure := none }

/-- Witness for C8 at a concrete input: replaying the already-admitted event
`w5` changes nothing and yields nothing. -/
theorem c8_cursor_never_twice_witness :
    processPoll "new-service-dev" seenW5State [rootEvent "w5" "CREATE_IN_PROGRESS"] =
      (seenW5State, []) :=
  (c8_cursor_never_twice "new-service-dev" seenW5State
    [rootEvent "w5" "CREATE_IN_PROGRESS"] (by decide)).1

/-- Claim C9: the monitor entry point, given the "already created, nothing
changed" sentinel in place of a stack identifier, returns immediately with no
outcome and makes zero event-feed client calls. -/
theorem c9_sentinel_zero_calls (k : OpKind) (polls : List PollResult) :
    monitorStack k StackRef.alreadyCreated polls = (none, 0) := rfl

/-- Claim C10: when `provider.apiGateway.apiKeys` is absent or an empty list,
`disassociateUsagePlan` issues no provider request at all — no
`describeStackResource`, `getUsagePlans` or `updateUsagePlan` call — and the
usage plans are left unchanged. -/
theorem c10_no_api_keys_no_requests (apiKeys : Option (List String))
    (env : ProviderEnv) (h : apiKeys = none ∨ apiKeys = some []) :
    disassociateUsagePlan apiKeys env = [] ∧
    applyRequests env.usagePlans (disassociateUsagePlan apiKeys env) =
      env.usagePlans := by
  have h1 : disassociateUsagePlan apiKeys env = [] := by
    rcases h with h | h
    · rw [h]; rfl
    · rw [h]; rfl
  refine ⟨h1, ?_⟩
  rw [h1]
  rfl

/-- A provider context with one usage plan associated to the rest api. -/
def sampleEnv : ProviderEnv :=
  { stackName := "new-service-dev", restApiLogicalId := "ApiGatewayRestApi",
    restApiPhysicalId := "abc123",
    usagePlans := [{ id := "plan1", apiStages := [{ apiId := "abc123", stage := "dev" }] }] }

/-- Witness for C10 at a concrete input: an absent `apiKeys` field issues no
request and leaves the sample usage plan untouched. -/
theorem c10_no_api_keys_no_requests_witness :
    disassociateUsagePlan none sampleEnv = [] ∧
    applyRequests sampleEnv.usagePlans (disassociateUsagePlan none sampleEnv) =
      sampleEnv.usagePlans :=
  c10_no_api_keys_no_requests none sampleEnv (Or.inl rfl)
